import Mathlib

/-!
Verification of the network composition function of
`configuration-aws-network-ts`.

The development embeds, as executable Lean definitions:

* the structural-subset comparator `assertDeepPartialMatch` and the
  observed-resource builder `buildObservedResource` of
  `src/test-helpers.ts`, translated line by line from the TypeScript
  source (JavaScript values are modelled by the inductive `JValue`,
  thrown errors by `Except MismatchError`);
* the naming function, resource composer and status aggregator of the
  network function, translated from its TypeScript source — the
  `function.ts` staged as the document appended to
  src/test-cases/README.md (lines 292-699), whose exports match the
  imports of src/function.test.ts.

Theorems about the embedded definitions follow the definitions.
-/

namespace AwsNetwork

/-- A JavaScript/JSON value as handled by the test helpers: `null` and
`undefined` are distinguished, numbers are modelled as integers (the
tests only use integral numbers), arrays are lists, objects are
insertion-ordered association lists with unique keys. -/
inductive JValue where
  | null
  | undef
  | bool (b : Bool)
  | num (n : Int)
  | str (s : String)
  | arr (elems : List JValue)
  | obj (fields : List (String × JValue))
deriving Repr

/-- The distinct `throw new Error(...)` sites of `assertDeepPartialMatch`
(src/test-helpers.ts, lines 243-289), kept structurally: each constructor
carries exactly the data interpolated into the corresponding message. -/
inductive MismatchError where
  | scalarMismatch (path : String) (expected actual : JValue)
  | expectedArray (path : String) (actualType : String)
  | lengthMismatch (path : String) (expectedLen actualLen : Nat)
  | expectedObject (path : String) (actualType : String)
  | missingProperty (path : String) (key : String)
deriving Repr

/-- JavaScript `typeof` on a `JValue` (note `typeof null = "object"`). -/
def jsTypeof : JValue → String
  | .null => "object"
  | .undef => "undefined"
  | .bool _ => "boolean"
  | .num _ => "number"
  | .str _ => "string"
  | .arr _ => "object"
  | .obj _ => "object"

/-- Property access `o[k]` on an object's field list: the first binding of
the key (JavaScript objects hold each key once). -/
def lookupField : List (String × JValue) → String → Option JValue
  | [], _ => none
  | (k, v) :: rest, key => if k = key then some v else lookupField rest key

/-- The own properties of a JavaScript array, for the object branch of the
comparator (arrays pass the `typeof actual === 'object'` test): index keys
`"0"`, `"1"`, ... plus `"length"`. -/
def arrayOwnFields (elems : List JValue) : List (String × JValue) :=
  (elems.enum.map fun p => (toString p.1, p.2)) ++ [("length", .num elems.length)]

mutual

/-- `assertDeepPartialMatch(actual, expected, path)` of
src/test-helpers.ts, lines 243-289, with `throw` modelled by
`Except.error`.  The branch order follows the source: `null`/`undefined`
expected always matches; a scalar expected requires strict equality; an
array expected requires an array actual of at least its length, compared
positionwise; an object expected requires an object (or array) actual that
owns every expected key, each value compared recursively. -/
def assertDeepPartialMatch (actual expected : JValue) (path : String) :
    Except MismatchError Unit :=
  match expected with
  | .null => .ok ()
  | .undef => .ok ()
  | .bool b =>
    match actual with
    | .bool b2 =>
      if b2 = b then .ok () else .error (.scalarMismatch path (.bool b) (.bool b2))
    | other => .error (.scalarMismatch path (.bool b) other)
  | .num n =>
    match actual with
    | .num n2 =>
      if n2 = n then .ok () else .error (.scalarMismatch path (.num n) (.num n2))
    | other => .error (.scalarMismatch path (.num n) other)
  | .str s =>
    match actual with
    | .str s2 =>
      if s2 = s then .ok () else .error (.scalarMismatch path (.str s) (.str s2))
    | other => .error (.scalarMismatch path (.str s) other)
  | .arr es =>
    match actual with
    | .arr as_ =>
      if as_.length < es.length then
        .error (.lengthMismatch path es.length as_.length)
      else
        matchItems as_ es path 0
    | other => .error (.expectedArray path (jsTypeof other))
  | .obj efs =>
    match actual with
    | .obj afs => matchProps afs efs path
    | .arr as_ => matchProps (arrayOwnFields as_) efs path
    | other => .error (.expectedObject path (jsTypeof other))

/-- The `for (let i = 0; ...)` loop of the array branch: position `i` of
`actual` (reading `undefined` past its end, as JavaScript indexing does)
against position `i` of `expected`, stopping at the first thrown error. -/
def matchItems (as_ es : List JValue) (path : String) (i : Nat) :
    Except MismatchError Unit :=
  match es with
  | [] => .ok ()
  | e :: es2 =>
    match as_ with
    | [] => do
      assertDeepPartialMatch .undef e (path ++ "[" ++ toString i ++ "]")
      matchItems [] es2 path (i + 1)
    | a :: as2 => do
      assertDeepPartialMatch a e (path ++ "[" ++ toString i ++ "]")
      matchItems as2 es2 path (i + 1)

/-- The `for (const key in expectedObj)` loop of the object branch: a key
absent from `actual` throws `Missing property` at the parent path; a
present key recurses at `path + "." + key`, stopping at the first error. -/
def matchProps (afs efs : List (String × JValue)) (path : String) :
    Except MismatchError Unit :=
  match efs with
  | [] => .ok ()
  | (k, v) :: rest =>
    match lookupField afs k with
    | none => .error (.missingProperty path k)
    | some av => do
      assertDeepPartialMatch av v (path ++ "." ++ k)
      matchProps afs rest path

end

/-- The path component every `MismatchError` carries (the `path` argument
interpolated at the front of the thrown message). -/
def MismatchError.errPath : MismatchError → String
  | .scalarMismatch p _ _ => p
  | .expectedArray p _ => p
  | .lengthMismatch p _ _ => p
  | .expectedObject p _ => p
  | .missingProperty p _ => p

/-- Whether the error payload includes both the expected value and the
actual value: only the scalar-mismatch message interpolates both. -/
def MismatchError.carriesBothValues : MismatchError → Bool
  | .scalarMismatch _ _ _ => true
  | _ => false

/-! ## The network function

The network function's TypeScript source (`formatCIDR`,
`formatSubnetName` and the `Function` class with the resource composer
and status aggregation) is staged as the document appended to
src/test-cases/README.md, lines 292-699 — the repository's
`function.ts`, whose exports match the imports of src/function.test.ts.
The definitions below embed that source; line references are into
src/test-cases/README.md. -/

/-- A SubnetSpec as the composer reads it: `availabilityZone`,
`cidrBlock` and the optional `type` string (the code never normalises
it; each use site applies its own default). -/
structure SubnetSpec where
  availabilityZone : String
  cidrBlock : String
  type : Option String
deriving Repr, DecidableEq

/-- What `RunFunction` reads off the observed composite (lines 344-347
and the uses further down): `metadata.name`, `metadata.namespace`, and
`spec.parameters.{id, region, vpcCidrBlock, subnets, managementPolicies,
providerConfigName}`.  `subnets || []` is already normalised to a list;
the two `||`-defaulted parameters stay optional because their defaults
sit at the use sites. -/
structure NetworkIntent where
  name : String
  namespaceOpt : Option String
  id : String
  region : String
  vpcCidrBlock : String
  subnets : List SubnetSpec
  managementPolicies : Option (List String)
  providerConfigName : Option String
deriving Repr

/-- One character under `formatCIDR`'s global character-class replace
`/[./]/g`: `.` and `/` become `-`, anything else is kept. -/
def replaceSep (c : Char) : Char :=
  if c = '.' ∨ c = '/' then '-' else c

/-- `formatCIDR` (lines 686-688): `cidr.replace(/[./]/g, '-')`, a
character-by-character substitution of every `.` and `/` with `-`. -/
def formatCIDR (cidr : String) : String :=
  String.mk (cidr.data.map replaceSep)

/-- JavaScript template interpolation of a possibly-undefined string
(an absent value prints as `"undefined"`). -/
def jsInterp : Option String → String
  | some t => t
  | none => "undefined"

/-- `formatSubnetName` (lines 697-699):
`availabilityZone + "-" + formatCIDR(cidr) + "-" + type` via a template
literal. -/
def formatSubnetName (s : SubnetSpec) : String :=
  s.availabilityZone ++ "-" ++ formatCIDR s.cidrBlock ++ "-" ++ jsInterp s.type

/-- The Subnet's resource key, `'subnet-' + name` (line 458). -/
def subnetKey (s : SubnetSpec) : String :=
  "subnet-" ++ formatSubnetName s

/-- The Route-Table-Association's resource key, `'rta-' + name`
(line 494). -/
def rtaKey (s : SubnetSpec) : String :=
  "rta-" ++ formatSubnetName s

/-- The `providerConfigRef` of `commonSpec` (lines 369-372):
`{kind: 'ProviderConfig', name: providerConfigName || 'default'}`. -/
structure ProviderConfigRef where
  kind : String
  name : String
deriving Repr, DecidableEq

/-- One composed resource: `apiVersion`/`kind` of its model class, the
metadata labels and optional namespace, and `commonSpec` plus the
resource's own `forProvider` block (kept as a JSON-like field list so
selectors and tags keep their shape). -/
structure ComposedResource where
  apiVersion : String
  kind : String
  labels : List (String × String)
  namespaceOpt : Option String
  managementPolicies : List String
  providerConfigRef : ProviderConfigRef
  forProvider : List (String × JValue)
deriving Repr

/-- The namespace part of `commonMetadata` (line 357):
`...(namespace && { namespace })` — present only when truthy (defined
and non-empty). -/
def effNamespace (intent : NetworkIntent) : Option String :=
  match intent.namespaceOpt with
  | some s => if s = "" then none else some s
  | none => none

/-- The labels of `commonMetadata` (lines 358-361): the single
`networks.aws.platform.upbound.io/network-id` label holding
`parameters.id`. -/
def commonLabels (intent : NetworkIntent) : List (String × String) :=
  [("networks.aws.platform.upbound.io/network-id", intent.id)]

/-- `commonSpec.managementPolicies` (lines 366-368):
`managementPolicies || ['*']` (an empty array is truthy and kept). -/
def effManagementPolicies (intent : NetworkIntent) : List String :=
  intent.managementPolicies.getD ["*"]

/-- `commonSpec.providerConfigRef` (lines 369-372); an empty
`providerConfigName` is falsy, so it also falls back to `'default'`. -/
def effProviderConfigRef (intent : NetworkIntent) : ProviderConfigRef :=
  { kind := "ProviderConfig"
    name :=
      match intent.providerConfigName with
      | some s => if s = "" then "default" else s
      | none => "default" }

/-- The `{matchControllerRef: true}` selector every cross-resource
reference in the source uses. -/
def ctrlRefSelector : JValue :=
  .obj [("matchControllerRef", .bool true)]

/-- One resource built from `commonMetadata` and `commonSpec` (the
apiVersion `ec2.aws.m.upbound.io/v1beta1` of the imported model classes)
plus the given kind, labels and `forProvider` block. -/
def mkResource (intent : NetworkIntent) (kind : String)
    (labels : List (String × String)) (fp : List (String × JValue)) :
    ComposedResource :=
  { apiVersion := "ec2.aws.m.upbound.io/v1beta1"
    kind := kind
    labels := labels
    namespaceOpt := effNamespace intent
    managementPolicies := effManagementPolicies intent
    providerConfigRef := effProviderConfigRef intent
    forProvider := fp }

/-- The VPC (lines 375-397): cidrBlock, DNS flags, region and the
`tags: {Name: metadata.name}` tag. -/
def vpcResource (intent : NetworkIntent) : ComposedResource :=
  mkResource intent "VPC" (commonLabels intent)
    [("cidrBlock", .str intent.vpcCidrBlock),
     ("enableDnsHostnames", .bool true),
     ("enableDnsSupport", .bool true),
     ("region", .str intent.region),
     ("tags", .obj [("Name", .str intent.name)])]

/-- The Internet Gateway (lines 399-417), attached to the VPC by
`{matchControllerRef: true}`. -/
def igwResource (intent : NetworkIntent) : ComposedResource :=
  mkResource intent "InternetGateway" (commonLabels intent)
    [("region", .str intent.region),
     ("vpcIdSelector", ctrlRefSelector)]

/-- The Subnet's `access` label (line 430): `subnet?.type || 'private'`
(absent or empty falls back to `'private'`). -/
def subnetAccessLabel (s : SubnetSpec) : String :=
  match s.type with
  | some t => if t = "" then "private" else t
  | none => "private"

/-- The Subnet's tags (lines 442-450): `type === 'private'` gets the
internal-load-balancer tag; any other type gets the public-load-balancer
tag plus the network-id tag. -/
def subnetTags (intent : NetworkIntent) (s : SubnetSpec) : JValue :=
  if s.type = some "private" then
    .obj [("kubernetes.io/role/internal-elb", .str "1")]
  else
    .obj [("kubernetes.io/role/elb", .str "1"),
          ("networks.aws.platform.upbound.io/network-id", .str intent.id)]

/-- The Subnet for one SubnetSpec (lines 426-461).  Its `labels` key
replaces `commonMetadata`'s wholesale: `access`, `zone` and the
network-id label; `mapPublicIpOnLaunch` is `type === 'public'`; the VPC
is referenced by `{matchControllerRef: true}`. -/
def subnetResource (intent : NetworkIntent) (s : SubnetSpec) : ComposedResource :=
  mkResource intent "Subnet"
    [("access", subnetAccessLabel s),
     ("zone", s.availabilityZone),
     ("networks.aws.platform.upbound.io/network-id", intent.id)]
    [("availabilityZone", .str s.availabilityZone),
     ("cidrBlock", .str s.cidrBlock),
     ("mapPublicIpOnLaunch", .bool (s.type = some "public")),
     ("region", .str intent.region),
     ("tags", subnetTags intent s),
     ("vpcIdSelector", ctrlRefSelector)]

/-- The Route-Table-Association for one SubnetSpec (lines 472-496): the
route table by `{matchControllerRef: true}`, the subnet by
`{matchControllerRef: true, matchLabels: {access, zone}}` where `access`
is `type === 'private' ? 'private' : 'public'`. -/
def rtaResource (intent : NetworkIntent) (s : SubnetSpec) : ComposedResource :=
  mkResource intent "RouteTableAssociation" (commonLabels intent)
    [("region", .str intent.region),
     ("routeTableIdSelector", ctrlRefSelector),
     ("subnetIdSelector",
      .obj [("matchControllerRef", .bool true),
            ("matchLabels",
             .obj [("access",
                    .str (if s.type = some "private" then "private" else "public")),
                   ("zone", .str s.availabilityZone)])])]

/-- The Route Table (lines 499-517). -/
def routeTableResource (intent : NetworkIntent) : ComposedResource :=
  mkResource intent "RouteTable" (commonLabels intent)
    [("region", .str intent.region),
     ("vpcIdSelector", ctrlRefSelector)]

/-- The Main-Route-Table-Association (lines 519-540). -/
def mainRtaResource (intent : NetworkIntent) : ComposedResource :=
  mkResource intent "MainRouteTableAssociation" (commonLabels intent)
    [("region", .str intent.region),
     ("routeTableIdSelector", ctrlRefSelector),
     ("vpcIdSelector", ctrlRefSelector)]

/-- The default Route (lines 542-564): `0.0.0.0/0` through the Internet
Gateway. -/
def routeResource (intent : NetworkIntent) : ComposedResource :=
  mkResource intent "Route" (commonLabels intent)
    [("destinationCidrBlock", .str "0.0.0.0/0"),
     ("region", .str intent.region),
     ("gatewayIdSelector", ctrlRefSelector),
     ("routeTableIdSelector", ctrlRefSelector)]

/-- The Security Group (lines 567-587), with its fixed name and
description. -/
def sgResource (intent : NetworkIntent) : ComposedResource :=
  mkResource intent "SecurityGroup" (commonLabels intent)
    [("name", .str "platform-ref-aws-cluster"),
     ("description", .str "Allow access to databases"),
     ("region", .str intent.region),
     ("vpcIdSelector", ctrlRefSelector)]

/-- One ingress Security Group Rule (lines 589-637): protocol `tcp`,
source `0.0.0.0/0`, description `Everywhere`, `fromPort = toPort =
port`. -/
def sgRuleResource (intent : NetworkIntent) (port : Int) : ComposedResource :=
  mkResource intent "SecurityGroupRule" (commonLabels intent)
    [("cidrBlocks", .arr [.str "0.0.0.0/0"]),
     ("fromPort", .num port),
     ("description", .str "Everywhere"),
     ("securityGroupIdSelector", ctrlRefSelector),
     ("protocol", .str "tcp"),
     ("region", .str intent.region),
     ("toPort", .num port),
     ("type", .str "ingress")]

/-- The desired-resource entries `RunFunction` inserts, in the source's
insertion order (the `desiredComposed` map of a request with no prior
desired resources, as in every staged scenario): `vpc`, `igw`, then per
subnet the Subnet and its Route-Table-Association (lines 420-497), then
`rt`, `mrta`, `route`, `sg`, `sgr-postgres`, `sgr-mysql`. -/
def composeEntries (intent : NetworkIntent) : List (String × ComposedResource) :=
  [("vpc", vpcResource intent),
   ("igw", igwResource intent)] ++
  (intent.subnets.flatMap fun s =>
    [(subnetKey s, subnetResource intent s), (rtaKey s, rtaResource intent s)]) ++
  [("rt", routeTableResource intent),
   ("mrta", mainRtaResource intent),
   ("route", routeResource intent),
   ("sg", sgResource intent),
   ("sgr-postgres", sgRuleResource intent 5432),
   ("sgr-mysql", sgRuleResource intent 3306)]

/-! ## Status aggregation and the response -/

/-- Drill into a `JValue` object by one key. -/
def getField (v : JValue) (k : String) : Option JValue :=
  match v with
  | .obj fs => lookupField fs k
  | _ => none

/-- The provider-assigned identifier of one entry of the
observed-resource mapping: the optional chain
`entry?.resource?.status?.atProvider?.id` (lines 463 and 642-644), when
every link is present and the id is a string. -/
def observedId (v : JValue) : Option String :=
  match getField v "resource" with
  | some r =>
    match getField r "status" with
    | some st =>
      match getField st "atProvider" with
      | some ap =>
        match getField ap "id" with
        | some (.str i) => some i
        | _ => none
      | none => none
    | none => none
  | none => none

/-- The identifier observed at one resource key of the observed-resource
mapping. -/
def observedIdAt (observed : List (String × JValue)) (key : String) :
    Option String :=
  (lookupField observed key).bind observedId

/-- `if (subnetId)` / `vpcId && ...` truthiness applied to an observed
id: an empty string is falsy, so it contributes nothing. -/
def truthyIdAt (observed : List (String × JValue)) (key : String) :
    Option String :=
  match observedIdAt observed key with
  | some i => if i = "" then none else some i
  | none => none

/-- The `XRStatus` object (lines 647-653, interface at 680-682) as the
five fields the function writes. -/
structure CompositeStatus where
  vpcId : Option String
  subnetIds : Option (List String)
  publicSubnetIds : Option (List String)
  privateSubnetIds : Option (List String)
  securityGroupIds : Option (List String)
deriving Repr, DecidableEq

/-- A backing sequence becomes a status field only when non-empty. -/
def nonEmptyOpt (l : List String) : Option (List String) :=
  if l = [] then none else some l

/-- The status aggregation of `RunFunction`: inside the subnet loop
(lines 463-471) each subnet's `observedComposed[subnetKey].resource
.status.atProvider.id` is pushed — only `if (subnetId)` — onto
`subnetIds` and onto `publicSubnetIds` when `type === 'public'` or
`privateSubnetIds` when `type === 'private'`; after the loop (lines
642-645) the VPC's id and the security group's id are read at their
fixed keys; the `xrStatus` spread (lines 647-653) keeps each list only
when non-empty and `vpcId` only when truthy. -/
def aggregate (intent : NetworkIntent) (observed : List (String × JValue)) :
    CompositeStatus :=
  let subnetIdsList := intent.subnets.filterMap fun s =>
    truthyIdAt observed (subnetKey s)
  let publicIdsList := (intent.subnets.filter fun s =>
    s.type = some "public").filterMap fun s => truthyIdAt observed (subnetKey s)
  let privateIdsList := (intent.subnets.filter fun s =>
    s.type = some "private").filterMap fun s => truthyIdAt observed (subnetKey s)
  let sgIdsList :=
    match truthyIdAt observed "sg" with
    | some i => [i]
    | none => []
  { vpcId := truthyIdAt observed "vpc"
    subnetIds := nonEmptyOpt subnetIdsList
    publicSubnetIds := nonEmptyOpt publicIdsList
    privateSubnetIds := nonEmptyOpt privateIdsList
    securityGroupIds := nonEmptyOpt sgIdsList }

/-- The response as `RunFunction` shapes it: the desired-resource
mapping and composite status set on success (lines 640, 655), or the
terminal failure condition `fatal(rsp, error.message)` sets on a throw
(line 672), with desired and status never attached. -/
structure FnResponse where
  desired : List (String × ComposedResource)
  status : Option CompositeStatus
  failure : Option String
deriving Repr

/-- The per-resource `.validate()` calls of `RunFunction`, taken in the
source's construction order: the first thrown validation error escapes
the `try` block unchanged (its own message, caught at line 662) and no
later resource is built. -/
def validateAll (validate : ComposedResource → Except String Unit) :
    List (String × ComposedResource) → Except String (List (String × ComposedResource))
  | [] => .ok []
  | (k, r) :: rest =>
    match validate r with
    | .error e => .error e
    | .ok _ => (validateAll validate rest).map fun tail => (k, r) :: tail

/-- One invocation of `Function.RunFunction` (lines 325-675) over the
intent read from the composite and the observed-resource mapping, with
the external schema validator `validate` a parameter (the `.validate()`
method of the imported model classes is out-of-scope library code).
When every resource validates, the response carries the composed
desired resources and the aggregated status; when any `.validate()`
throws, the `catch` block leaves the desired mapping unset and calls
`fatal` with the error's message. -/
def runFunction (validate : ComposedResource → Except String Unit)
    (intent : NetworkIntent) (observed : List (String × JValue)) : FnResponse :=
  match validateAll validate (composeEntries intent) with
  | .ok rs =>
    { desired := rs, status := some (aggregate intent observed), failure := none }
  | .error m =>
    { desired := [], status := none, failure := some m }

/-! ## buildObservedResource (src/test-helpers.ts, lines 368-390) -/

/-- Replace the value at every binding of `k`, keeping positions. -/
def overwriteField (k : String) (v : JValue) :
    List (String × JValue) → List (String × JValue)
  | [] => []
  | (k1, v1) :: tl =>
    if k1 = k then (k1, v) :: overwriteField k v tl
    else (k1, v1) :: overwriteField k v tl

/-- JavaScript object-spread update of one key: an existing binding is
overwritten in place, a new key is appended. -/
def setKey (fs : List (String × JValue)) (k : String) (v : JValue) :
    List (String × JValue) :=
  if (fs.map Prod.fst).contains k then overwriteField k v fs
  else fs ++ [(k, v)]

/-- JavaScript spread `{ ...base, ...overrides }` on field lists: each
override entry updates the accumulated object in turn. -/
def spreadInto (base overrides : List (String × JValue)) :
    List (String × JValue) :=
  overrides.foldl (fun acc p => setKey acc p.1 p.2) base

/-- The binding of `key` a spread of `overrides` would impose: the last
entry of `overrides` carrying `key`, if any. -/
def lastLookup : List (String × JValue) → String → Option JValue
  | [], _ => none
  | (k, v) :: rest, key =>
    match lastLookup rest key with
    | some w => some w
    | none => if k = key then some v else none

/-- The `config` argument of `buildObservedResource`. -/
structure ObservedConfig where
  name : String
  kind : String
  apiVersion : String
  metadata : Option (List (String × JValue))
  spec : Option JValue
  status : Option JValue

/-- The metadata object built by `buildObservedResource`: the default
annotations object (holding `crossplane.io/composition-resource-name`)
spread with the caller's `config.metadata`, exactly as
`{ annotations: {...}, ...config.metadata }` does. -/
def buildObservedMetadata (config : ObservedConfig) : List (String × JValue) :=
  spreadInto
    [("annotations",
      .obj [("crossplane.io/composition-resource-name", .str config.name)])]
    (config.metadata.getD [])

/-- `buildObservedResource(config)` of src/test-helpers.ts, lines
368-390: the `resource` object it returns, as a field list (the `...(x
&& { f: x })` conditionals keep `spec`/`status` only when supplied). -/
def buildObservedResource (config : ObservedConfig) : List (String × JValue) :=
  [("apiVersion", .str config.apiVersion),
   ("kind", .str config.kind),
   ("metadata", .obj (buildObservedMetadata config))] ++
  (match config.spec with | some sp => [("spec", sp)] | none => []) ++
  (match config.status with | some st => [("status", st)] | none => [])

/-! ## Lemmas about the comparator -/

/-- Success of the object loop means: every expected key is owned by the
actual object and its value matches recursively at the extended path. -/
theorem matchProps_ok_iff (afs efs : List (String × JValue)) (path : String) :
    matchProps afs efs path = .ok () ↔
      ∀ p ∈ efs, ∃ av, lookupField afs p.1 = some av ∧
        assertDeepPartialMatch av p.2 (path ++ "." ++ p.1) = .ok () := by
  induction efs with
  | nil => simp [matchProps]
  | cons hd tl ih =>
    obtain ⟨k, v⟩ := hd
    cases hlk : lookupField afs k with
    | none => simp [matchProps, hlk]
    | some av =>
      cases hm : assertDeepPartialMatch av v (path ++ "." ++ k) with
      | error e => simp [matchProps, hlk, hm, Bind.bind, Except.bind]
      | ok u =>
        cases u
        simp [matchProps, hlk, hm, Bind.bind, Except.bind, ih]

/-- Success of the array loop means positionwise success, indexing the
path from the loop's starting counter. -/
theorem matchItems_ok_iff (es as_ : List JValue) (path : String) (i : Nat) :
    matchItems as_ es path i = .ok () ↔
      ∀ j, j < es.length →
        assertDeepPartialMatch (as_.getD j .undef) (es.getD j .undef)
          (path ++ "[" ++ toString (i + j) ++ "]") = .ok () := by
  induction es generalizing as_ i with
  | nil => simp [matchItems]
  | cons e tl ih =>
    have hsplit : ∀ (first : Except MismatchError Unit)
        (rest : Except MismatchError Unit),
        (first >>= fun _ => rest) = .ok () ↔ first = .ok () ∧ rest = .ok () := by
      intro first rest
      cases first with
      | error e => simp [Bind.bind, Except.bind]
      | ok u => cases u; simp [Bind.bind, Except.bind]
    have hstep :
        matchItems as_ (e :: tl) path i = .ok () ↔
          assertDeepPartialMatch (as_.getD 0 .undef) e
              (path ++ "[" ++ toString i ++ "]") = .ok () ∧
            matchItems (as_.drop 1) tl path (i + 1) = .ok () := by
      cases as_ with
      | nil => simpa [matchItems] using hsplit _ _
      | cons a as2 => simpa [matchItems] using hsplit _ _
    rw [hstep, ih]
    constructor
    · rintro ⟨h0, hrest⟩ j hj
      cases j with
      | zero => simpa using h0
      | succ j2 =>
        have := hrest j2 (by simpa using hj)
        have harith : i + 1 + j2 = i + (j2 + 1) := by omega
        rw [harith] at this
        cases as_ with
        | nil => simpa using this
        | cons a as2 => simpa using this
    · intro h
      refine ⟨by simpa using h 0 (by simp), ?_⟩
      intro j hj
      have := h (j + 1) (by simpa using hj)
      have harith : i + (j + 1) = i + 1 + j := by omega
      rw [harith] at this
      cases as_ with
      | nil => simpa using this
      | cons a as2 => simpa using this

/-- C1: the comparator implements containment.  For a keyed structure
expected against a keyed structure actual, success is exactly "every key
of expected is present in actual and its value matches recursively" —
keys only in actual are unconstrained; for a sequence expected against a
sequence actual, success is exactly "actual is at least as long and every
expected position matches the same position of actual", so trailing
elements of actual are allowed; a sequence expected against any
non-sequence actual fails; and concretely
`matches({a:1,b:2}, {a:1}, "root")` and `matches([1,2,3], [1,2], "root")`
succeed while `matches({a:1}, {a:1,b:2}, "root")` and
`matches([1], [1,2], "root")` fail. -/
theorem comparator_containment (afs efs : List (String × JValue))
    (as_ es : List JValue) (path : String) (b : Bool) (n : Int) (s : String) :
    (assertDeepPartialMatch (.obj afs) (.obj efs) path = .ok () ↔
      ∀ p ∈ efs, ∃ av, lookupField afs p.1 = some av ∧
        assertDeepPartialMatch av p.2 (path ++ "." ++ p.1) = .ok ()) ∧
    (assertDeepPartialMatch (.arr as_) (.arr es) path = .ok () ↔
      es.length ≤ as_.length ∧
      ∀ j, j < es.length →
        assertDeepPartialMatch (as_.getD j .undef) (es.getD j .undef)
          (path ++ "[" ++ toString j ++ "]") = .ok ()) ∧
    assertDeepPartialMatch .null (.arr es) path
      = .error (.expectedArray path "object") ∧
    assertDeepPartialMatch .undef (.arr es) path
      = .error (.expectedArray path "undefined") ∧
    assertDeepPartialMatch (.bool b) (.arr es) path
      = .error (.expectedArray path "boolean") ∧
    assertDeepPartialMatch (.num n) (.arr es) path
      = .error (.expectedArray path "number") ∧
    assertDeepPartialMatch (.str s) (.arr es) path
      = .error (.expectedArray path "string") ∧
    assertDeepPartialMatch (.obj afs) (.arr es) path
      = .error (.expectedArray path "object") ∧
    assertDeepPartialMatch (.obj [("a", .num 1), ("b", .num 2)])
      (.obj [("a", .num 1)]) "root" = .ok () ∧
    assertDeepPartialMatch (.arr [.num 1, .num 2, .num 3])
      (.arr [.num 1, .num 2]) "root" = .ok () ∧
    assertDeepPartialMatch (.obj [("a", .num 1)])
      (.obj [("a", .num 1), ("b", .num 2)]) "root"
      = .error (.missingProperty "root" "b") ∧
    assertDeepPartialMatch (.arr [.num 1]) (.arr [.num 1, .num 2]) "root"
      = .error (.lengthMismatch "root" 2 1) := by
  refine ⟨?_, ?_, rfl, rfl, rfl, rfl, rfl, rfl, rfl, rfl, rfl, rfl⟩
  · simpa [assertDeepPartialMatch] using matchProps_ok_iff afs efs path
  · constructor
    · intro h
      by_cases hlen : as_.length < es.length
      · simp [assertDeepPartialMatch, hlen] at h
      · refine ⟨by omega, ?_⟩
        have h2 : matchItems as_ es path 0 = .ok () := by
          simpa [assertDeepPartialMatch, hlen] using h
        intro j hj
        simpa using (matchItems_ok_iff es as_ path 0).mp h2 j hj
    · rintro ⟨hlen, h⟩
      have hlt : ¬ as_.length < es.length := by omega
      have h2 : matchItems as_ es path 0 = .ok () := by
        rw [matchItems_ok_iff]
        intro j hj
        simpa using h j hj
      simpa [assertDeepPartialMatch, hlt] using h2

/-- C8 counterexample: at `matches({a:1}, {a:1,b:2}, "root")` the thrown
error is `Missing property` with path `"root"` and key `"b"`: the carried
path is not `root.b`, and the error does not carry the expected and
actual values. -/
theorem comparator_mismatch_payload_cex :
    assertDeepPartialMatch (.obj [("a", .num 1)])
        (.obj [("a", .num 1), ("b", .num 2)]) "root"
      = .error (.missingProperty "root" "b") ∧
    (MismatchError.missingProperty "root" "b").errPath ≠ "root.b" ∧
    (MismatchError.missingProperty "root" "b").carriesBothValues = false := by
  refine ⟨rfl, ?_, rfl⟩
  decide

/-- C8 (amended): a divergence throws a single error naming the point of
the first divergence and stops there — a later expected entry or position
cannot change the error.  A scalar mismatch carries the path, the
expected value and the actual value; a missing key is reported with the
parent structure's path together with the missing key's name, so
`matches({a:1}, {a:1,b:2}, "root")` fails with path `"root"` and missing
key `"b"`. -/
theorem comparator_mismatch_payload (afs rest : List (String × JValue))
    (k path : String) (v av e2 : JValue) (e : MismatchError)
    (a : JValue) (as2 es2 : List JValue) (i : Nat) (n n2 : Int) :
    (assertDeepPartialMatch (.obj [("a", .num 1)])
        (.obj [("a", .num 1), ("b", .num 2)]) "root"
      = .error (.missingProperty "root" "b") ∧
     (MismatchError.missingProperty "root" "b").errPath = "root") ∧
    (lookupField afs k = none →
      matchProps afs ((k, v) :: rest) path = .error (.missingProperty path k)) ∧
    (lookupField afs k = some av →
      assertDeepPartialMatch av v (path ++ "." ++ k) = .error e →
      matchProps afs ((k, v) :: rest) path = .error e) ∧
    (assertDeepPartialMatch a e2 (path ++ "[" ++ toString i ++ "]") = .error e →
      matchItems (a :: as2) (e2 :: es2) path i = .error e) ∧
    (n2 ≠ n →
      assertDeepPartialMatch (.num n2) (.num n) path
        = .error (.scalarMismatch path (.num n) (.num n2))) := by
  refine ⟨⟨rfl, rfl⟩, ?_, ?_, ?_, ?_⟩
  · intro hlk
    simp [matchProps, hlk]
  · intro hlk hm
    simp [matchProps, hlk, hm, Bind.bind, Except.bind]
  · intro hm
    simp [matchItems, hm, Bind.bind, Except.bind]
  · intro hne
    simp [assertDeepPartialMatch, hne]

/-- C4: `formatCIDR` maps every `.` and every `/` of its input to `-` and
keeps every other character, character by character — pure,
order-preserving, length-preserving, hence non-collapsing — and
`formatCIDR("192..168.0.1/24") = "192--168-0-1-24"`. -/
theorem formatCIDR_substitution (s : String) (c : Char) :
    (formatCIDR s).data = s.data.map replaceSep ∧
    (formatCIDR s).length = s.length ∧
    replaceSep '.' = '-' ∧
    replaceSep '/' = '-' ∧
    (c ≠ '.' ∧ c ≠ '/' ∧ replaceSep c = c ∨
      (c = '.' ∨ c = '/') ∧ replaceSep c = '-') ∧
    formatCIDR "192..168.0.1/24" = "192--168-0-1-24" := by
  refine ⟨rfl, ?_, rfl, rfl, ?_, rfl⟩
  · cases s with
    | mk data => simp [formatCIDR, String.length]
  · by_cases h1 : c = '.'
    · exact Or.inr ⟨Or.inl h1, by simp [replaceSep, h1]⟩
    by_cases h2 : c = '/'
    · exact Or.inr ⟨Or.inr h2, by simp [replaceSep, h2]⟩
    · exact Or.inl ⟨h1, h2, by simp [replaceSep, h1, h2]⟩

/-- C3: the key of the Subnet produced for a subnet descriptor is
`"subnet-" + availabilityZone + "-" + formatCIDR(cidrBlock) + "-" +
type`; the composer files the Subnet resource under exactly that key;
and for `{az: "us-west-2a", cidr: "192.168.0.0/18", type: "public"}` the
key is `subnet-us-west-2a-192-168-0-0-18-public`. -/
theorem subnet_key_naming (s : SubnetSpec) (intent : NetworkIntent) :
    (∀ t, s.type = some t →
      subnetKey s = "subnet-" ++ s.availabilityZone ++ "-" ++
        formatCIDR s.cidrBlock ++ "-" ++ t) ∧
    (s ∈ intent.subnets →
      (subnetKey s, subnetResource intent s) ∈ composeEntries intent ∧
      (subnetResource intent s).kind = "Subnet") ∧
    subnetKey ⟨"us-west-2a", "192.168.0.0/18", some "public"⟩
      = "subnet-us-west-2a-192-168-0-0-18-public" := by
  refine ⟨fun t ht => ?_, fun hs => ⟨?_, rfl⟩, rfl⟩
  · simp [subnetKey, formatSubnetName, jsInterp, ht, String.append_assoc]
  · refine List.mem_append_left _
      (List.mem_append_right _ (List.mem_flatMap.mpr ⟨s, hs, ?_⟩))
    simp

/-- Access one `forProvider` field of a composed resource. -/
def fpGet (r : ComposedResource) (k : String) : Option JValue :=
  lookupField r.forProvider k

/-- A concrete zero-subnet intent, mirroring the request of
src/function.test.ts lines 163-208. -/
def zeroSubnetIntent : NetworkIntent :=
  { name := "test-network"
    namespaceOpt := some "test"
    id := "test-network"
    region := "us-west-2"
    vpcCidrBlock := "10.0.0.0/16"
    subnets := []
    managementPolicies := none
    providerConfigName := none }

/-- C2: with zero subnets the composer produces exactly 8 resources, one
of each fixed kind and exactly two Security Group Rules; the rules are
ingress, protocol `tcp`, source `0.0.0.0/0`, one for port 5432 and one
for port 3306; the default Route targets `0.0.0.0/0`. -/
theorem fixed_resource_set (intent : NetworkIntent)
    (h : intent.subnets = []) :
    (composeEntries intent).length = 8 ∧
    (composeEntries intent).map (fun p => p.2.kind) =
      ["VPC", "InternetGateway", "RouteTable", "MainRouteTableAssociation",
       "Route", "SecurityGroup", "SecurityGroupRule", "SecurityGroupRule"] ∧
    (composeEntries intent).filter (fun p => p.2.kind == "SecurityGroupRule") =
      [("sgr-postgres", sgRuleResource intent 5432),
       ("sgr-mysql", sgRuleResource intent 3306)] ∧
    fpGet (sgRuleResource intent 5432) "type" = some (.str "ingress") ∧
    fpGet (sgRuleResource intent 5432) "protocol" = some (.str "tcp") ∧
    fpGet (sgRuleResource intent 5432) "cidrBlocks"
      = some (.arr [.str "0.0.0.0/0"]) ∧
    fpGet (sgRuleResource intent 5432) "fromPort" = some (.num 5432) ∧
    fpGet (sgRuleResource intent 5432) "toPort" = some (.num 5432) ∧
    fpGet (sgRuleResource intent 3306) "type" = some (.str "ingress") ∧
    fpGet (sgRuleResource intent 3306) "protocol" = some (.str "tcp") ∧
    fpGet (sgRuleResource intent 3306) "cidrBlocks"
      = some (.arr [.str "0.0.0.0/0"]) ∧
    fpGet (sgRuleResource intent 3306) "fromPort" = some (.num 3306) ∧
    fpGet (sgRuleResource intent 3306) "toPort" = some (.num 3306) ∧
    fpGet (routeResource intent) "destinationCidrBlock"
      = some (.str "0.0.0.0/0") := by
  obtain ⟨nm, ns, i, r, v, subs, m, p⟩ := intent
  simp only at h
  subst h
  exact ⟨rfl, rfl, rfl, rfl, rfl, rfl, rfl, rfl, rfl, rfl, rfl, rfl, rfl, rfl⟩

/-- C2 witness: the zero-subnet intent of the tests produces exactly 8
resources. -/
theorem fixed_resource_set_witness :
    (composeEntries zeroSubnetIntent).length = 8 ∧
    (composeEntries zeroSubnetIntent).map (fun p => p.2.kind) =
      ["VPC", "InternetGateway", "RouteTable", "MainRouteTableAssociation",
       "Route", "SecurityGroup", "SecurityGroupRule", "SecurityGroupRule"] :=
  ⟨(fixed_resource_set zeroSubnetIntent rfl).1,
   (fixed_resource_set zeroSubnetIntent rfl).2.1⟩

/-- An observed-mapping entry whose `resource.status.atProvider.id` is
`i` (the shape `buildObservedResource` produces). -/
def obsWithId (i : String) : JValue :=
  .obj [("resource",
    .obj [("status", .obj [("atProvider", .obj [("id", .str i)])])])]

/-- The intent of the status test of src/function.test.ts lines 210-286:
one public subnet. -/
def statusTestIntent : NetworkIntent :=
  { name := "status-test"
    namespaceOpt := some "test"
    id := "status-test"
    region := "us-west-2"
    vpcCidrBlock := "10.0.0.0/16"
    subnets := [⟨"us-west-2a", "10.0.0.0/24", some "public"⟩]
    managementPolicies := none
    providerConfigName := none }

/-- An observed mapping holding only a VPC with id `vpc-123` and a
security group with id `sg-456`. -/
def vpcSgObserved : List (String × JValue) :=
  [("vpc", obsWithId "vpc-123"), ("sg", obsWithId "sg-456")]

/-- C5: every subnet whose observed resource (looked up at the
deterministic subnet key) carries `status.atProvider.id` contributes that
id to `subnetIds` and to the public or private list according to its
type; and with only a VPC (`vpc-123`) and a security group (`sg-456`)
observed, the aggregate is exactly `{vpcId: "vpc-123",
securityGroupIds: ["sg-456"]}` with no subnet fields. -/
theorem status_aggregation (intent : NetworkIntent)
    (observed : List (String × JValue)) (s : SubnetSpec) (i : String)
    (hs : s ∈ intent.subnets)
    (hid : observedIdAt observed (subnetKey s) = some i)
    (hne : i ≠ "") :
    (∃ l, (aggregate intent observed).subnetIds = some l ∧ i ∈ l) ∧
    (s.type = some "public" →
      ∃ l, (aggregate intent observed).publicSubnetIds = some l ∧ i ∈ l) ∧
    (s.type = some "private" →
      ∃ l, (aggregate intent observed).privateSubnetIds = some l ∧ i ∈ l) ∧
    aggregate statusTestIntent vpcSgObserved =
      ⟨some "vpc-123", none, none, none, some ["sg-456"]⟩ := by
  have htr : truthyIdAt observed (subnetKey s) = some i := by
    simp [truthyIdAt, hid, hne]
  have hmem : i ∈ intent.subnets.filterMap fun s2 =>
      truthyIdAt observed (subnetKey s2) :=
    List.mem_filterMap.mpr ⟨s, hs, htr⟩
  refine ⟨⟨_, ?_, hmem⟩, fun hpub => ?_, fun hpriv => ?_, rfl⟩
  · simp [aggregate, nonEmptyOpt, List.ne_nil_of_mem hmem]
  · have hmem2 : i ∈ ((intent.subnets.filter fun s2 =>
        s2.type = some "public").filterMap fun s2 =>
        truthyIdAt observed (subnetKey s2)) :=
      List.mem_filterMap.mpr ⟨s, List.mem_filter.mpr ⟨hs, by simp [hpub]⟩, htr⟩
    exact ⟨_, by simp [aggregate, nonEmptyOpt, List.ne_nil_of_mem hmem2], hmem2⟩
  · have hmem2 : i ∈ ((intent.subnets.filter fun s2 =>
        s2.type = some "private").filterMap fun s2 =>
        truthyIdAt observed (subnetKey s2)) :=
      List.mem_filterMap.mpr ⟨s, List.mem_filter.mpr ⟨hs, by simp [hpriv]⟩, htr⟩
    exact ⟨_, by simp [aggregate, nonEmptyOpt, List.ne_nil_of_mem hmem2], hmem2⟩

/-- An observed mapping that also holds the public subnet of
`statusTestIntent` with id `subnet-test789`. -/
def fullObserved : List (String × JValue) :=
  vpcSgObserved ++
  [("subnet-us-west-2a-10-0-0-0-24-public", obsWithId "subnet-test789")]

/-- C5 witness: the observed subnet id `subnet-test789` reaches
`subnetIds` and `publicSubnetIds`. -/
theorem status_aggregation_witness :
    (∃ l, (aggregate statusTestIntent fullObserved).subnetIds = some l ∧
      "subnet-test789" ∈ l) ∧
    (∃ l, (aggregate statusTestIntent fullObserved).publicSubnetIds = some l ∧
      "subnet-test789" ∈ l) :=
  ⟨(status_aggregation statusTestIntent fullObserved
      ⟨"us-west-2a", "10.0.0.0/24", some "public"⟩ "subnet-test789"
      (by simp [statusTestIntent]) rfl (by decide)).1,
   (status_aggregation statusTestIntent fullObserved
      ⟨"us-west-2a", "10.0.0.0/24", some "public"⟩ "subnet-test789"
      (by simp [statusTestIntent]) rfl (by decide)).2.1 rfl⟩

/-- A truthy observed id comes from an actual non-empty observed id. -/
theorem truthyIdAt_some (observed : List (String × JValue)) (key : String)
    (v : String) (h : truthyIdAt observed key = some v) :
    observedIdAt observed key = some v ∧ v ≠ "" := by
  unfold truthyIdAt at h
  cases hobs : observedIdAt observed key with
  | none => simp [hobs] at h
  | some j =>
    rw [hobs] at h
    by_cases hj : j = ""
    · simp [hj] at h
    · simp only [hj, if_false, Option.some.injEq] at h
      subst h
      exact ⟨rfl, hj⟩

/-- C6: with an empty observed mapping the aggregate has none of its five
fields; in general a list field, when present, is a non-empty list, and
`vpcId`, when present, is a non-empty id actually observed at the VPC's
key — in particular observed resources whose `atProvider.id` is the
empty string (falsy) contribute nothing. -/
theorem sparse_status (intent : NetworkIntent)
    (observed : List (String × JValue)) :
    aggregate intent [] = ⟨none, none, none, none, none⟩ ∧
    (∀ l, (aggregate intent observed).subnetIds = some l → l ≠ []) ∧
    (∀ l, (aggregate intent observed).publicSubnetIds = some l → l ≠ []) ∧
    (∀ l, (aggregate intent observed).privateSubnetIds = some l → l ≠ []) ∧
    (∀ l, (aggregate intent observed).securityGroupIds = some l → l ≠ []) ∧
    (∀ v, (aggregate intent observed).vpcId = some v →
      observedIdAt observed "vpc" = some v ∧ v ≠ "") ∧
    aggregate statusTestIntent
      [("vpc", obsWithId ""), ("sg", obsWithId ""),
       ("subnet-us-west-2a-10-0-0-0-24-public", obsWithId "")] =
      ⟨none, none, none, none, none⟩ := by
  have hopt : ∀ (l l2 : List String), nonEmptyOpt l = some l2 → l2 ≠ [] := by
    intro l l2 hl
    by_cases hnil : l = []
    · simp [nonEmptyOpt, hnil] at hl
    · simp only [nonEmptyOpt, hnil, if_false, Option.some.injEq] at hl
      exact hl ▸ hnil
  refine ⟨?_, fun l hl => hopt _ l hl, fun l hl => hopt _ l hl,
    fun l hl => hopt _ l hl, fun l hl => hopt _ l hl,
    fun v hv => truthyIdAt_some observed "vpc" v hv, rfl⟩
  have hnone : ∀ key, truthyIdAt ([] : List (String × JValue)) key = none :=
    fun _ => rfl
  simp [aggregate, nonEmptyOpt, hnone]

/-- A validation failure anywhere in the entry list makes the whole pass
fail. -/
theorem validateAll_error_of_mem
    (validate : ComposedResource → Except String Unit)
    (entries : List (String × ComposedResource)) (k : String)
    (r : ComposedResource) (m : String) (hmem : (k, r) ∈ entries)
    (hval : validate r = .error m) :
    ∃ m2, validateAll validate entries = .error m2 := by
  induction entries with
  | nil => cases hmem
  | cons hd tl ih =>
    obtain ⟨k1, r1⟩ := hd
    rcases List.mem_cons.mp hmem with hh | ht
    · obtain ⟨hk, hr⟩ := Prod.mk.injEq .. ▸ hh
      subst hk; subst hr
      exact ⟨m, by simp [validateAll, hval]⟩
    · cases hv1 : validate r1 with
      | error e => exact ⟨e, by simp [validateAll, hv1]⟩
      | ok u =>
        cases u
        obtain ⟨m2, hm2⟩ := ih ht
        exact ⟨m2, by simp [validateAll, hv1, hm2, Except.map]⟩

/-- C7: if shape validation fails for any single produced resource, the
whole invocation fails atomically — the desired-resource mapping is
empty, no status is produced, and a terminal failure condition is
present. -/
theorem atomic_failure (validate : ComposedResource → Except String Unit)
    (intent : NetworkIntent) (observed : List (String × JValue))
    (k : String) (r : ComposedResource) (m : String)
    (hmem : (k, r) ∈ composeEntries intent)
    (hval : validate r = .error m) :
    (runFunction validate intent observed).desired = [] ∧
    (runFunction validate intent observed).status = none ∧
    ∃ m2, (runFunction validate intent observed).failure = some m2 := by
  obtain ⟨m2, hm2⟩ :=
    validateAll_error_of_mem validate (composeEntries intent) k r m hmem hval
  exact ⟨by simp [runFunction, hm2], by simp [runFunction, hm2],
    m2, by simp [runFunction, hm2]⟩

/-- A shape validator that rejects every VPC. -/
def rejectVpc (r : ComposedResource) : Except String Unit :=
  if r.kind == "VPC" then .error "invalid shape" else .ok ()

/-- C7 witness: when the VPC fails validation, the zero-subnet intent
yields an empty desired mapping and a failure condition. -/
theorem atomic_failure_witness :
    (runFunction rejectVpc zeroSubnetIntent []).desired = [] ∧
    (runFunction rejectVpc zeroSubnetIntent []).status = none ∧
    ∃ m2, (runFunction rejectVpc zeroSubnetIntent []).failure = some m2 :=
  atomic_failure rejectVpc zeroSubnetIntent [] "vpc"
    (vpcResource zeroSubnetIntent) "invalid shape"
    (by simp [composeEntries]) rfl

/-- C9: the composer and the aggregator are pure functions of their
arguments — two invocations on identical inputs produce identical entry
lists, identical key sets, identical statuses and identical responses. -/
theorem compose_deterministic
    (validate : ComposedResource → Except String Unit)
    (i1 i2 : NetworkIntent) (o1 o2 : List (String × JValue))
    (hi : i1 = i2) (ho : o1 = o2) :
    composeEntries i1 = composeEntries i2 ∧
    (composeEntries i1).map Prod.fst = (composeEntries i2).map Prod.fst ∧
    aggregate i1 o1 = aggregate i2 o2 ∧
    runFunction validate i1 o1 = runFunction validate i2 o2 := by
  subst hi; subst ho
  exact ⟨rfl, rfl, rfl, rfl⟩

/-- C9 witness: two invocations on the status-test input coincide. -/
theorem compose_deterministic_witness :
    aggregate statusTestIntent fullObserved
      = aggregate statusTestIntent fullObserved :=
  (compose_deterministic rejectVpc statusTestIntent statusTestIntent
    fullObserved fullObserved rfl rfl).2.2.1

/-- Lookup across an appended field list: the left list wins. -/
theorem lookupField_append (b c : List (String × JValue)) (k : String) :
    lookupField (b ++ c) k =
      match lookupField b k with
      | some w => some w
      | none => lookupField c k := by
  induction b with
  | nil => simp [lookupField]
  | cons hd tl ih =>
    obtain ⟨k1, v1⟩ := hd
    by_cases hk : k1 = k
    · simp [lookupField, hk]
    · simpa [lookupField, hk] using ih

/-- Lookup after the in-place update of `setKey`'s overwrite branch. -/
theorem lookupField_overwrite (b : List (String × JValue)) (k : String)
    (v : JValue) (k2 : String) :
    lookupField (overwriteField k v b) k2 =
      if k2 = k then (lookupField b k).map fun _ => v
      else lookupField b k2 := by
  induction b with
  | nil => simp [overwriteField, lookupField]
  | cons hd tl ih =>
    obtain ⟨k1, v1⟩ := hd
    by_cases h1 : k1 = k
    · subst h1
      by_cases h2 : k2 = k1
      · subst h2
        simp [overwriteField, lookupField]
      · simp [overwriteField, lookupField, h2, Ne.symm h2, ih]
    · by_cases h2 : k1 = k2
      · subst h2
        simp [overwriteField, lookupField, h1]
      · simp [overwriteField, lookupField, h1, h2, ih]

/-- A key is among the first components iff its lookup succeeds. -/
theorem contains_iff_lookup (b : List (String × JValue)) (k : String) :
    (b.map Prod.fst).contains k = true ↔ ∃ w, lookupField b k = some w := by
  induction b with
  | nil => simp [lookupField]
  | cons hd tl ih =>
    obtain ⟨k1, v1⟩ := hd
    by_cases hk : k1 = k
    · simp [lookupField, hk]
    · simpa [lookupField, hk, Ne.symm hk] using ih

/-- Lookup after one spread-update step. -/
theorem lookupField_setKey (b : List (String × JValue)) (k : String)
    (v : JValue) (k2 : String) :
    lookupField (setKey b k v) k2 =
      if k2 = k then some v else lookupField b k2 := by
  unfold setKey
  by_cases hc : (b.map Prod.fst).contains k = true
  · obtain ⟨w, hw⟩ := (contains_iff_lookup b k).mp hc
    rw [if_pos hc, lookupField_overwrite, hw]
    by_cases h2 : k2 = k
    · simp [h2]
    · simp [h2]
  · rw [if_neg hc, lookupField_append]
    by_cases h2 : k2 = k
    · subst h2
      have hnone : lookupField b k2 = none := by
        cases hl : lookupField b k2 with
        | none => rfl
        | some w => exact absurd ((contains_iff_lookup b k2).mpr ⟨w, hl⟩) hc
      rw [hnone]
      simp [lookupField]
    · cases hl : lookupField b k2 with
      | none => simp [lookupField, Ne.symm h2, h2]
      | some w => simp [h2]

/-- Lookup after a whole spread: the last override binding of the key
wins, and otherwise the base binding shows through. -/
theorem lookupField_spreadInto (ovs b : List (String × JValue))
    (k : String) :
    lookupField (spreadInto b ovs) k =
      match lastLookup ovs k with
      | some w => some w
      | none => lookupField b k := by
  induction ovs generalizing b with
  | nil => simp [spreadInto, lastLookup]
  | cons hd tl ih =>
    obtain ⟨k1, v1⟩ := hd
    have hstep : spreadInto b ((k1, v1) :: tl) = spreadInto (setKey b k1 v1) tl := rfl
    rw [hstep, ih]
    cases hlast : lastLookup tl k with
    | some w => simp [lastLookup, hlast]
    | none =>
      by_cases hk : k1 = k
      · subst hk
        simp [lastLookup, hlast, lookupField_setKey]
      · simp [lastLookup, hlast, hk, lookupField_setKey, Ne.symm hk]

/-- C10: `buildObservedResource` defaults the metadata annotations to
`{'crossplane.io/composition-resource-name': config.name}` whenever the
caller's `config.metadata` is absent or carries no `annotations` key; a
caller-supplied `annotations` object replaces that default entirely, so
the composition-resource-name annotation is then present only if the
caller put it there. -/
theorem build_observed_annotations (config : ObservedConfig) :
    (config.metadata = none →
      lookupField (buildObservedMetadata config) "annotations" =
        some (.obj [("crossplane.io/composition-resource-name",
          .str config.name)])) ∧
    (∀ m, config.metadata = some m → lastLookup m "annotations" = none →
      lookupField (buildObservedMetadata config) "annotations" =
        some (.obj [("crossplane.io/composition-resource-name",
          .str config.name)])) ∧
    (∀ m a, config.metadata = some m → lastLookup m "annotations" = some a →
      lookupField (buildObservedMetadata config) "annotations" = some a) ∧
    lookupField (buildObservedResource config) "metadata" =
      some (.obj (buildObservedMetadata config)) ∧
    lookupField
      (buildObservedMetadata
        { name := "vpc", kind := "VPC", apiVersion := "ec2.aws.m.upbound.io/v1beta1"
          metadata := some [("annotations", .obj [("team", .str "net")])]
          spec := none, status := none })
      "annotations" = some (.obj [("team", .str "net")]) ∧
    lookupField [("team", (.str "net" : JValue))]
      "crossplane.io/composition-resource-name" = none := by
  refine ⟨?_, ?_, ?_, rfl, ?_, rfl⟩
  · intro hm
    simp [buildObservedMetadata, hm, lookupField_spreadInto, lastLookup,
      lookupField]
  · intro m hm hlast
    simp [buildObservedMetadata, hm, lookupField_spreadInto, hlast,
      lookupField]
  · intro m a hm hlast
    simp [buildObservedMetadata, hm, lookupField_spreadInto, hlast]
  · rw [show lookupField
        (buildObservedMetadata
          { name := "vpc", kind := "VPC"
            apiVersion := "ec2.aws.m.upbound.io/v1beta1"
            metadata := some [("annotations", .obj [("team", .str "net")])]
            spec := none, status := none }) "annotations" =
          some (.obj [("team", .str "net")]) from rfl]

end AwsNetwork
